import Mathlib

/-!
Shallow embedding of `src/script.js` (single-page decorative site helpers):
scroll navigation, background-audio controls, per-video viewport playback,
responsive media sizing, and the canvas shooting-star pool.  JS numbers are
modelled as `ℚ`, DOM state as explicit structures, and the asynchronous
outcome of a `play()` promise as an injected boolean.
-/

namespace TwoYears

/-! ### Scroll navigator (script.js lines 26-61) -/

/-- The scroll navigator's state: the number of `.section` elements found at
load and the tracked `currentIndex`. -/
structure NavState where
  sections : Nat
  currentIndex : Int
deriving Repr, DecidableEq

/-- The two reassignments of `index` at the top of `goTo`
(`if (index < 0) index = 0; if (index >= sections.length) index = sections.length - 1`). -/
def clampIndex (len : Nat) (index : Int) : Int :=
  let index := if index < 0 then 0 else index
  if index ≥ (len : Int) then (len : Int) - 1 else index

/-- `goTo(index)`: early return when no sections exist, otherwise clamp,
scroll the clamped section into view (second component: the scrolled-to
section, `none` when no scroll happens) and assign `currentIndex`. -/
def goTo (s : NavState) (index : Int) : NavState × Option Nat :=
  if s.sections = 0 then (s, none)
  else
    ({ s with currentIndex := clampIndex s.sections index },
      some (clampIndex s.sections index).toNat)

/-- `nextBtn` click handler: `goTo(currentIndex + 1)`. -/
def nextClick (s : NavState) : NavState × Option Nat :=
  goTo s (s.currentIndex + 1)

/-- `prevBtn` click handler: `goTo(currentIndex - 1)`. -/
def prevClick (s : NavState) : NavState × Option Nat :=
  goTo s (s.currentIndex - 1)

/-- The `keydown` listener: ArrowDown/PageDown advance, ArrowUp/PageUp
retreat, every other key leaves the state alone. -/
def keydown (s : NavState) (key : String) : NavState × Option Nat :=
  if key = "ArrowDown" ∨ key = "PageDown" then goTo s (s.currentIndex + 1)
  else if key = "ArrowUp" ∨ key = "PageUp" then goTo s (s.currentIndex - 1)
  else (s, none)

/-- Initialization (lines 26-45): `currentIndex` starts at 0; when the
section list is empty the observer is skipped and one warning is logged.
The second component collects the console warnings emitted. -/
def initNav (sectionCount : Nat) : NavState × List String :=
  ({ sections := sectionCount, currentIndex := 0 },
    if sectionCount ≠ 0 then [] else ["No .section elements found."])

theorem clampIndex_eq (len : Nat) (index : Int) :
    clampIndex len index = min (max index 0) ((len : Int) - 1) := by
  simp only [clampIndex]
  split_ifs <;> omega

/-! ### Audio controller: volume slider (script.js lines 121-125) -/

/-- The volume-slider `input` handler.  `parsed` is `parseFloat` of the
slider's value string: `none` models `NaN`, in which case the guard
`!Number.isNaN(val)` skips the assignment; otherwise the clamped value
`Math.min(1, Math.max(0, val))` is written to `audio.volume`. -/
def volumeInput (volume : ℚ) (parsed : Option ℚ) : ℚ :=
  match parsed with
  | none => volume
  | some val => min 1 (max 0 val)

/-! ### Media resizer (script.js lines 186-202) -/

/-- The `max-width`/`max-height` style pair `resizeMedia` writes. -/
structure MediaStyle where
  maxWidth : String
  maxHeight : String
deriving Repr, DecidableEq

/-- The width-band lookup inside `resizeMedia`'s `forEach` body. -/
def resizeStyle (screenWidth : ℚ) : MediaStyle :=
  if screenWidth < 768 then ⟨"85%", "50vh"⟩
  else if screenWidth < 1200 then ⟨"75%", "55vh"⟩
  else ⟨"95%", "75vh"⟩

/-- `resizeMedia`: apply the band lookup for the current viewport width to
every matched `.media-img` / `.media-video` element. -/
def resizeMedia (screenWidth : ℚ) (mediaElements : List MediaStyle) : List MediaStyle :=
  mediaElements.map (fun _ => resizeStyle screenWidth)

/-! ### Video viewport controller (script.js lines 128-181) -/

/-- Observable state of one tracked video: the element's `paused` flag and
whether its sibling `.play-overlay` is displayed. -/
structure VideoView where
  paused : Bool
  overlayVisible : Bool
deriving Repr, DecidableEq

/-- One `IntersectionObserver` notification for one video (lines 133-150).
`playResolves` injects the outcome of the `v.play()` promise; the returned
`Bool` records whether `v.pause()` was invoked during this notification. -/
def videoNotify (isIntersecting : Bool) (ratio : ℚ)
    (playResolves : Bool) (v : VideoView) : VideoView × Bool :=
  if isIntersecting = true ∧ ratio > 1/2 then
    if playResolves then ({ paused := false, overlayVisible := false }, false)
    else ({ v with overlayVisible := true }, false)
  else
    if v.paused = false then ({ v with paused := true }, true) else (v, false)

/-- The `play`-event handler attached to each video (lines 175-179): when the
video at position `i` fires `play`, walk the tracked collection and pause
every *other* video that is not already paused.  The list holds each video's
`paused` flag; `j` is the position of the element under the `forEach`. -/
def pauseOthersFrom (i : Nat) : Nat → List Bool → List Bool
  | _, [] => []
  | j, p :: rest =>
      (if j ≠ i ∧ p = false then true else p) :: pauseOthersFrom i (j + 1) rest

/-- The paused flags of the whole collection after the video at position `i`
fires its `play` event. -/
def playEventHandler (videos : List Bool) (i : Nat) : List Bool :=
  pauseOthersFrom i 0 videos

/-- The positions on which the `play`-event handler actually calls
`other.pause()` (the guard `other !== v && !other.paused`). -/
def pauseCallsFrom (i : Nat) : Nat → List Bool → List Nat
  | _, [] => []
  | j, p :: rest =>
      (if j ≠ i ∧ p = false then [j] else []) ++ pauseCallsFrom i (j + 1) rest

/-- The `pause()` calls issued by the `play`-event handler of position `i`. -/
def pauseCalls (videos : List Bool) (i : Nat) : List Nat :=
  pauseCallsFrom i 0 videos

/-! ### Audio controller: autoplay listeners and manual toggle
(script.js lines 64-110) -/

/-- A user interaction the document-level autoplay listeners react to. -/
inductive UserEvent
  | click
  | touchstart
deriving Repr, DecidableEq

/-- Which of the two `{ once: true, capture: true }` listeners registered on
lines 95-96 are still attached. -/
structure AutoplayListeners where
  clickArmed : Bool
  touchArmed : Bool
deriving Repr, DecidableEq

/-- Right after registration both once-listeners are attached. -/
def initialListeners : AutoplayListeners :=
  { clickArmed := true, touchArmed := true }

/-- Dispatch one document-level event: a still-attached once-listener fires
`tryAutoplayAudio` (counted by the second component) and removes itself. -/
def dispatchEvent : AutoplayListeners → UserEvent → AutoplayListeners × Nat
  | s, .click =>
      if s.clickArmed then ({ s with clickArmed := false }, 1) else (s, 0)
  | s, .touchstart =>
      if s.touchArmed then ({ s with touchArmed := false }, 1) else (s, 0)

/-- Dispatch a sequence of document-level events in order: the final
listener state together with the total number of `tryAutoplayAudio`
re-attempts fired along the way. -/
def runEvents : AutoplayListeners → List UserEvent → AutoplayListeners × Nat
  | s, [] => (s, 0)
  | s, e :: rest =>
      ((runEvents (dispatchEvent s e).1 rest).1,
        (dispatchEvent s e).2 + (runEvents (dispatchEvent s e).1 rest).2)

/-- Re-attempt count over a whole interaction sequence starting from the
freshly registered listeners. -/
def autoplayAttempts (events : List UserEvent) : Nat :=
  (runEvents initialListeners events).2

/-- State touched by the manual `musicToggle` click handler: the internal
`musicPlaying` flag, the audio element's `paused` flag, and the toggle's
text glyph. -/
structure AudioControls where
  musicPlaying : Bool
  audioPaused : Bool
  toggleGlyph : String
deriving Repr, DecidableEq

/-- The `musicToggle` click handler (lines 98-110).  `playResolves` injects
whether `audio.play()` starts playback; the rejection handler is empty, so a
rejected play leaves the element's `paused` flag as it was.  The flag flip
`musicPlaying = !musicPlaying` runs unconditionally after the branch. -/
def musicToggleClick (playResolves : Bool) (s : AudioControls) : AudioControls :=
  let s' :=
    if s.musicPlaying then
      { s with audioPaused := true, toggleGlyph := "🎵" }
    else
      { s with audioPaused := if playResolves then false else s.audioPaused,
               toggleGlyph := "⏸" }
  { s' with musicPlaying := !s'.musicPlaying }

/-! ### Shooting-star canvas pool (script.js lines 304-317) -/

/-- One streak of the 25-entity pool. -/
structure Star where
  x : ℚ
  y : ℚ
  length : ℚ
  speed : ℚ
  opacity : ℚ
deriving Repr, DecidableEq

/-- The five `Math.random()` draws `reset()` consumes, in source order. -/
structure RandomDraws where
  rx : ℚ
  ry : ℚ
  rlen : ℚ
  rspeed : ℚ
  ropacity : ℚ
deriving Repr, DecidableEq

/-- `Math.random()` returns a value in `[0, 1)`. -/
def RandomDraws.valid (r : RandomDraws) : Prop :=
  0 ≤ r.rx ∧ r.rx < 1 ∧ 0 ≤ r.ry ∧ r.ry < 1 ∧ 0 ≤ r.rlen ∧ r.rlen < 1 ∧
    0 ≤ r.rspeed ∧ r.rspeed < 1 ∧ 0 ≤ r.ropacity ∧ r.ropacity < 1

instance (r : RandomDraws) : Decidable r.valid := by
  unfold RandomDraws.valid; infer_instance

/-- `Star.reset()`: fresh randomized position in the canvas (y in the top
half), trail length, speed and opacity. -/
def Star.reset (width height : ℚ) (r : RandomDraws) : Star :=
  { x := r.rx * width
    y := r.ry * height / 2
    length := r.rlen * 100 + 50
    speed := r.rspeed * 6 + 4
    opacity := r.ropacity * (6/10) + 4/10 }

/-- `Star.update()`: advance by `(speed, speed * 0.3)`, then reset in place
when the new position exceeds the canvas bounds. -/
def Star.update (s : Star) (width height : ℚ) (r : RandomDraws) : Star :=
  let s₁ := { s with x := s.x + s.speed }
  let s₂ := { s₁ with y := s₁.y + s₁.speed * (3/10) }
  if s₂.x > width ∨ s₂.y > height then Star.reset width height r else s₂

/-! ### Helper lemmas -/

theorem pauseOthersFrom_getD (i : Nat) (l : List Bool) :
    ∀ j k, k < l.length →
      (pauseOthersFrom i j l).getD k false =
        if j + k = i then l.getD k false else true := by
  induction l with
  | nil => intro j k hk; simp at hk
  | cons p rest ih =>
    intro j k hk
    cases k with
    | zero =>
      by_cases hj : j = i <;> cases p <;> simp [pauseOthersFrom, hj]
    | succ k =>
      simp only [pauseOthersFrom, List.getD_cons_succ]
      rw [ih (j + 1) k (by simpa using hk)]
      rw [show j + 1 + k = j + (k + 1) from by omega]

theorem pauseOthersFrom_count_zero (i : Nat) (l : List Bool) :
    ∀ j, i < j → List.count false (pauseOthersFrom i j l) = 0 := by
  induction l with
  | nil => intro j _; simp [pauseOthersFrom]
  | cons p rest ih =>
    intro j hj
    have hja : ¬ j = i := by omega
    simp only [pauseOthersFrom, List.count_cons, ih (j + 1) (by omega)]
    cases p <;> simp [hja]

theorem pauseOthersFrom_count_le (i : Nat) (l : List Bool) :
    ∀ j, List.count false (pauseOthersFrom i j l) ≤ 1 := by
  induction l with
  | nil => intro j; simp [pauseOthersFrom]
  | cons p rest ih =>
    intro j
    by_cases hj : j = i
    · subst hj
      have h0 := pauseOthersFrom_count_zero j rest (j + 1) (by omega)
      simp only [pauseOthersFrom, List.count_cons, h0]
      cases p <;> simp
    · simp only [pauseOthersFrom, List.count_cons]
      have hrest := ih (j + 1)
      cases p <;> simp_all

theorem pauseCallsFrom_mem (i : Nat) (l : List Bool) :
    ∀ j k, k ∈ pauseCallsFrom i j l →
      k ≠ i ∧ j ≤ k ∧ l.getD (k - j) true = false := by
  induction l with
  | nil => intro j k hk; simp [pauseCallsFrom] at hk
  | cons p rest ih =>
    intro j k hk
    simp only [pauseCallsFrom, List.mem_append] at hk
    rcases hk with hk | hk
    · by_cases hc : j ≠ i ∧ p = false
      · simp only [if_pos hc, List.mem_singleton] at hk
        refine ⟨?_, ?_, ?_⟩
        · rw [hk]; exact hc.1
        · rw [hk]
        · rw [hk]; simpa using hc.2
      · simp [if_neg hc] at hk
    · have h := ih (j + 1) k hk
      refine ⟨h.1, by omega, ?_⟩
      have hk1 : k - j = (k - (j + 1)) + 1 := by omega
      rw [hk1, List.getD_cons_succ]
      exact h.2.2

theorem runEvents_spec (s : AutoplayListeners) (events : List UserEvent) :
    (runEvents s events).2 =
      ((if s.clickArmed = true ∧ UserEvent.click ∈ events then 1 else 0) +
        (if s.touchArmed = true ∧ UserEvent.touchstart ∈ events then 1 else 0)) ∧
    ((runEvents s events).1.clickArmed = true ↔
      (s.clickArmed = true ∧ UserEvent.click ∉ events)) ∧
    ((runEvents s events).1.touchArmed = true ↔
      (s.touchArmed = true ∧ UserEvent.touchstart ∉ events)) := by
  induction events generalizing s with
  | nil => simp [runEvents]
  | cons e rest ih =>
    obtain ⟨ih1, ih2, ih3⟩ := ih (dispatchEvent s e).1
    cases e <;> cases hc : s.clickArmed <;> cases ht : s.touchArmed <;>
      simp_all [runEvents, dispatchEvent, List.mem_cons] <;> try omega

/-! ### Claim theorems -/

/-- C2: for every integer `index` passed to `goTo` with a non-empty section
list, the new `currentIndex` equals `index` clamped to
`[0, sectionCount - 1]`, the clamped section is the one scrolled to, and the
index update happens in the same synchronous step that issues the scroll
(both are components of the same transition). -/
theorem goTo_clamps (s : NavState) (index : Int) (h : s.sections ≠ 0) :
    (goTo s index).1.currentIndex = min (max index 0) ((s.sections : Int) - 1) ∧
    (goTo s index).2 = some (goTo s index).1.currentIndex.toNat ∧
    0 ≤ (goTo s index).1.currentIndex ∧
    (goTo s index).1.currentIndex ≤ (s.sections : Int) - 1 := by
  refine ⟨?_, ?_, ?_, ?_⟩ <;> simp only [goTo, if_neg h, clampIndex_eq] <;> omega

theorem goTo_clamps_witness :
    (3 : Nat) ≠ 0 ∧
    (goTo ⟨3, 0⟩ 7).1.currentIndex = min (max 7 0) (((3 : Nat) : Int) - 1) :=
  ⟨by decide, (goTo_clamps ⟨3, 0⟩ 7 (by decide)).1⟩

/-- C3: a numeric volume-slider input `v` sets the volume to
`min 1 (max 0 v)` (so below 0 yields 0, above 1 yields 1, in range is
unchanged, and the result is always in `[0, 1]`); a `NaN` parse leaves the
previous volume in place. -/
theorem volumeInput_clamps (volume v : ℚ) :
    volumeInput volume (some v) = min 1 (max 0 v) ∧
    volumeInput volume none = volume ∧
    (v < 0 → volumeInput volume (some v) = 0) ∧
    (1 < v → volumeInput volume (some v) = 1) ∧
    (0 ≤ v → v ≤ 1 → volumeInput volume (some v) = v) ∧
    0 ≤ volumeInput volume (some v) ∧ volumeInput volume (some v) ≤ 1 := by
  refine ⟨by simp [volumeInput], by simp [volumeInput], ?_, ?_, ?_, ?_, ?_⟩ <;>
  · intros
    simp only [volumeInput, min_def, max_def]
    split_ifs <;> linarith

/-- C6: `resizeMedia` is a pure (deterministic, stateless) function of the
viewport width, applied uniformly to every matched element: widths below 768
map every element to max-width "85%" / max-height "50vh", widths in
`[768, 1200)` to "75%" / "55vh", widths from 1200 up to "95%" / "75vh"; in
particular width 500 gives "85%", width 900 gives "75%", width 1400 gives
"95%". -/
theorem resizeMedia_bands (w : ℚ) (media : List MediaStyle) :
    (resizeMedia w media).length = media.length ∧
    (w < 768 → ∀ m ∈ resizeMedia w media, m = ⟨"85%", "50vh"⟩) ∧
    (768 ≤ w → w < 1200 → ∀ m ∈ resizeMedia w media, m = ⟨"75%", "55vh"⟩) ∧
    (1200 ≤ w → ∀ m ∈ resizeMedia w media, m = ⟨"95%", "75vh"⟩) ∧
    resizeStyle 500 = ⟨"85%", "50vh"⟩ ∧
    resizeStyle 900 = ⟨"75%", "55vh"⟩ ∧
    resizeStyle 1400 = ⟨"95%", "75vh"⟩ := by
  refine ⟨by simp [resizeMedia], ?_, ?_, ?_, ?_, ?_, ?_⟩
  · intro hw m hm
    simp only [resizeMedia, List.mem_map] at hm
    obtain ⟨_, _, rfl⟩ := hm
    simp [resizeStyle, hw]
  · intro h1 h2 m hm
    simp only [resizeMedia, List.mem_map] at hm
    obtain ⟨_, _, rfl⟩ := hm
    simp [resizeStyle, not_lt.mpr h1, h2]
  · intro h1 m hm
    simp only [resizeMedia, List.mem_map] at hm
    obtain ⟨_, _, rfl⟩ := hm
    simp [resizeStyle, not_lt.mpr h1, not_lt.mpr (by linarith : (768 : ℚ) ≤ w)]
  · norm_num [resizeStyle]
  · norm_num [resizeStyle]
  · norm_num [resizeStyle]

/-- C1: when the tracked video at position `i` fires its `play` event, the
handler leaves at most one unpaused video in the collection (position `i`),
pauses every other video, never touches the state of the video that fired,
never calls `pause()` on it, and calls `pause()` only on videos that were
not already paused. -/
theorem playEvent_single_playback (videos : List Bool) (i : Nat)
    (hi : i < videos.length) :
    (∀ j, j < videos.length → j ≠ i →
      (playEventHandler videos i).getD j false = true) ∧
    (playEventHandler videos i).getD i false = videos.getD i false ∧
    List.count false (playEventHandler videos i) ≤ 1 ∧
    i ∉ pauseCalls videos i ∧
    (∀ j ∈ pauseCalls videos i, videos.getD j true = false) := by
  refine ⟨?_, ?_, ?_, ?_, ?_⟩
  · intro j hj hne
    rw [playEventHandler, pauseOthersFrom_getD i videos 0 j hj]
    simp [hne]
  · rw [playEventHandler, pauseOthersFrom_getD i videos 0 i hi]
    simp
  · exact pauseOthersFrom_count_le i videos 0
  · intro hmem
    exact (pauseCallsFrom_mem i videos 0 i hmem).1 rfl
  · intro j hj
    simpa using (pauseCallsFrom_mem i videos 0 j hj).2.2

theorem playEvent_single_playback_witness :
    (0 : Nat) < [false, true, false].length ∧
    List.count false (playEventHandler [false, true, false] 0) ≤ 1 :=
  ⟨by decide, (playEvent_single_playback [false, true, false] 0 (by decide)).2.2.1⟩

/-- C4: one `Star.update` adds `speed` to `x` and `speed * 0.3` to `y`; when
the advanced position exceeds the canvas (`x > width` or `y > height`) the
same call resets the streak to the freshly randomized state, whose position
lies in `[0, width) × [0, height / 2)` and whose new length, speed and
opacity come from the randomized ranges `[50, 150)`, `[4, 10)` and
`[0.4, 1)`; otherwise the result is exactly the advanced old position with
the other fields untouched. -/
theorem star_update_spec (s : Star) (width height : ℚ) (r : RandomDraws)
    (hr : r.valid) (hw : 0 < width) (hh : 0 < height) :
    (¬(s.x + s.speed > width ∨ s.y + s.speed * (3/10) > height) →
      Star.update s width height r =
        { s with x := s.x + s.speed, y := s.y + s.speed * (3/10) }) ∧
    ((s.x + s.speed > width ∨ s.y + s.speed * (3/10) > height) →
      Star.update s width height r = Star.reset width height r ∧
      0 ≤ (Star.update s width height r).x ∧
      (Star.update s width height r).x < width ∧
      0 ≤ (Star.update s width height r).y ∧
      (Star.update s width height r).y < height / 2 ∧
      50 ≤ (Star.update s width height r).length ∧
      (Star.update s width height r).length < 150 ∧
      4 ≤ (Star.update s width height r).speed ∧
      (Star.update s width height r).speed < 10 ∧
      4/10 ≤ (Star.update s width height r).opacity ∧
      (Star.update s width height r).opacity < 1) := by
  obtain ⟨hx0, hx1, hy0, hy1, hl0, hl1, hs0, hs1, ho0, ho1⟩ := hr
  constructor
  · intro hin
    simp only [Star.update]
    rw [if_neg hin]
  · intro hout
    have hupd : Star.update s width height r = Star.reset width height r := by
      simp only [Star.update]
      rw [if_pos hout]
    refine ⟨hupd, ?_, ?_, ?_, ?_, ?_, ?_, ?_, ?_, ?_, ?_⟩ <;>
      rw [hupd] <;> simp only [Star.reset] <;> nlinarith

theorem star_update_spec_witness :
    (RandomDraws.mk (1/2) (1/2) (1/2) (1/2) (1/2)).valid ∧
    Star.update ⟨795, 10, 60, 6, 1/2⟩ 800 600 ⟨1/2, 1/2, 1/2, 1/2, 1/2⟩ =
      Star.reset 800 600 ⟨1/2, 1/2, 1/2, 1/2, 1/2⟩ :=
  ⟨by norm_num [RandomDraws.valid],
    ((star_update_spec ⟨795, 10, 60, 6, 1/2⟩ 800 600 ⟨1/2, 1/2, 1/2, 1/2, 1/2⟩
      (by norm_num [RandomDraws.valid]) (by norm_num) (by norm_num)).2
      (by norm_num)).1⟩

/-- C5: one visibility notification for one video: intersecting with ratio
above 0.5 attempts playback — a resolved `play()` ends with the video
playing and the overlay hidden, a rejected one shows the overlay and leaves
the `paused` flag exactly as it was (a paused video remains paused); a
non-intersecting or ratio-at-most-0.5 notification ends with the video
paused, and `pause()` is invoked exactly when the video was not already
paused. -/
theorem videoNotify_spec (inter : Bool) (ratio : ℚ) (succ : Bool)
    (v : VideoView) :
    (inter = true → 1/2 < ratio → succ = true →
      videoNotify inter ratio succ v = (⟨false, false⟩, false)) ∧
    (inter = true → 1/2 < ratio → succ = false →
      (videoNotify inter ratio succ v).1.overlayVisible = true ∧
      (videoNotify inter ratio succ v).1.paused = v.paused) ∧
    ((inter = false ∨ ratio ≤ 1/2) →
      (videoNotify inter ratio succ v).1.paused = true ∧
      ((videoNotify inter ratio succ v).2 = true ↔ v.paused = false)) := by
  refine ⟨?_, ?_, ?_⟩
  · rintro rfl hr rfl
    simp only [videoNotify]
    split_ifs with h1 h2
    · rfl
    · exact absurd ⟨trivial, hr⟩ h1
    · exact absurd ⟨trivial, hr⟩ h1
  · rintro rfl hr rfl
    simp only [videoNotify]
    split_ifs with h1 h2
    · exact h2.elim
    · exact ⟨rfl, rfl⟩
    · exact absurd ⟨trivial, hr⟩ h1
    · exact absurd ⟨trivial, hr⟩ h1
  · intro hmiss
    have hcond : ¬(inter = true ∧ ratio > 1/2) := by
      rcases hmiss with h | h
      · rintro ⟨h1, _⟩; rw [h] at h1; exact Bool.false_ne_true h1
      · rintro ⟨_, h2⟩; linarith
    simp only [videoNotify]
    rw [if_neg hcond]
    cases hp : v.paused
    · rw [if_pos rfl]
      exact ⟨rfl, by simp⟩
    · rw [if_neg (by simp)]
      exact ⟨hp, by simp [hp]⟩

/-- C7: with zero `.section` elements, initialization completes normally (a
total function of the section count), logs exactly the one warning, and
every navigation entry point (`goTo`, the next/prev button handlers, any
keydown) returns the state unchanged and issues no scroll. -/
theorem initNav_no_sections_safe (s : NavState) (h : s.sections = 0)
    (index : Int) (key : String) :
    (initNav 0).2 = ["No .section elements found."] ∧
    goTo s index = (s, none) ∧
    nextClick s = (s, none) ∧
    prevClick s = (s, none) ∧
    keydown s key = (s, none) := by
  have hg : ∀ idx : Int, goTo s idx = (s, none) := fun idx => by simp [goTo, h]
  refine ⟨by simp [initNav], hg index, hg _, hg _, ?_⟩
  simp only [keydown]
  split_ifs <;> simp [hg]

theorem initNav_no_sections_safe_witness :
    (⟨0, 5⟩ : NavState).sections = 0 ∧
    goTo ⟨0, 5⟩ 3 = (⟨0, 5⟩, none) :=
  ⟨rfl, (initNav_no_sections_safe ⟨0, 5⟩ rfl 3 "ArrowDown").2.1⟩

/-- C8 counterexample: a click followed by a touchstart fires the autoplay
re-attempt twice — the two independent once-listeners each fire once — so
the re-attempt does not happen "exactly once across all user interactions".
-/
theorem autoplay_two_attempts_cx :
    autoplayAttempts [UserEvent.click, UserEvent.touchstart] = 2 ∧
    ¬ autoplayAttempts [UserEvent.click, UserEvent.touchstart] ≤ 1 := by
  decide

/-- C8 amended: each of the two once-listeners (click and touchstart)
re-attempts autoplay at most once and then has removed itself, so over any
interaction sequence the number of re-attempts is one per event type that
occurs — at most two in total, and at most one when all interactions are of
a single kind. -/
theorem autoplay_attempts_amended (events : List UserEvent) :
    autoplayAttempts events =
      ((if UserEvent.click ∈ events then 1 else 0) +
        (if UserEvent.touchstart ∈ events then 1 else 0)) ∧
    autoplayAttempts events ≤ 2 ∧
    ((runEvents initialListeners events).1.clickArmed = true ↔
      UserEvent.click ∉ events) ∧
    ((runEvents initialListeners events).1.touchArmed = true ↔
      UserEvent.touchstart ∉ events) := by
  obtain ⟨h1, h2, h3⟩ := runEvents_spec initialListeners events
  simp only [initialListeners] at h1 h2 h3
  simp only [autoplayAttempts, initialListeners]
  refine ⟨by simpa using h1, ?_, by simpa using h2, by simpa using h3⟩
  rw [h1]
  split_ifs <;> simp

/-- C9: every click on the music toggle negates the `musicPlaying` flag
regardless of whether the underlying `play()`/`pause()` succeeds (two
successive clicks restore it); a click with the flag set pauses the audio
and shows the "🎵" glyph, a click with the flag clear shows the "⏸" glyph
and attempts playback — unpausing on success, leaving the element untouched
on a rejected promise. -/
theorem musicToggle_flips_flag (p p₁ p₂ : Bool) (s : AudioControls) :
    (musicToggleClick p s).musicPlaying = !s.musicPlaying ∧
    (musicToggleClick p₂ (musicToggleClick p₁ s)).musicPlaying =
      s.musicPlaying ∧
    (s.musicPlaying = true →
      (musicToggleClick p s).audioPaused = true ∧
      (musicToggleClick p s).toggleGlyph = "🎵") ∧
    (s.musicPlaying = false →
      (musicToggleClick p s).toggleGlyph = "⏸" ∧
      (p = true → (musicToggleClick p s).audioPaused = false) ∧
      (p = false → (musicToggleClick p s).audioPaused = s.audioPaused)) := by
  cases hm : s.musicPlaying <;> cases p <;> cases p₁ <;>
    simp [musicToggleClick, hm]

/-- C10: `goTo` is idempotent on the tracked index, and the index it
produces depends only on the requested index and the section count — for a
non-empty section list it equals `min (max index 0) (sectionCount - 1)`
whatever `currentIndex` held before. -/
theorem goTo_idempotent (s t : NavState) (index : Int)
    (hs : s.sections ≠ 0) (hts : t.sections = s.sections) :
    (goTo (goTo s index).1 index).1.currentIndex =
      (goTo s index).1.currentIndex ∧
    (goTo t index).1.currentIndex = (goTo s index).1.currentIndex ∧
    (goTo s index).1.currentIndex = min (max index 0) ((s.sections : Int) - 1) := by
  have hcur : ∀ u : NavState, u.sections = s.sections →
      (goTo u index).1.currentIndex = min (max index 0) ((s.sections : Int) - 1) := by
    intro u hu
    simp only [goTo, hu, if_neg hs, clampIndex_eq]
  have hsec : (goTo s index).1.sections = s.sections := by
    simp [goTo, if_neg hs]
  exact ⟨by rw [hcur _ hsec, hcur s rfl], by rw [hcur t hts, hcur s rfl],
    hcur s rfl⟩

theorem goTo_idempotent_witness :
    (⟨3, 0⟩ : NavState).sections ≠ 0 ∧
    (⟨3, 2⟩ : NavState).sections = (⟨3, 0⟩ : NavState).sections ∧
    (goTo (goTo ⟨3, 0⟩ 7).1 7).1.currentIndex = (goTo ⟨3, 0⟩ 7).1.currentIndex :=
  ⟨by decide, rfl, (goTo_idempotent ⟨3, 0⟩ ⟨3, 2⟩ 7 (by decide) rfl).1⟩

end TwoYears
